import Mathlib

/-!
Verification development for the ride-quote backend (app.py).

The service quotes a multi-stop ride: it builds a stop sequence from a
configured fixed origin, the pickup location, the primary destination and any
additional destinations, resolves the distance and duration of each
consecutive leg through an external distance-matrix provider, sums the legs
and applies a linear cost formula.

Embedding conventions:
* Python floats are modelled as exact rationals (`ℚ`); Python `round(x, 2)`
  is `round2`, round-half-to-even at two decimals.
* The outbound HTTP call of `get_distance_and_duration` is modelled by a
  `ProviderResponse` value standing for what the transport layer yields:
  a transport error (a `requests` exception or non-2xx status), a JSON parse
  error, or a parsed payload.
* `book_ride` is parametrised by `resolve : String → String → LegResult`,
  the oracle standing for `get_distance_and_duration` applied to the ambient
  API key and network; it also returns the ordered trace of resolver calls
  `(origin, destination)` it made, so that claims about the number and order
  of outbound leg resolutions can be stated.
-/

namespace RideApp

/-- Round half to even of a rational to an integer, as Python round(x). -/
def roundHalfEven (x : ℚ) : ℤ :=
  let f : ℤ := ⌊x⌋
  let r : ℚ := x - f
  if r < 1/2 then f
  else if 1/2 < r then f + 1
  else if f % 2 = 0 then f else f + 1

/-- Round to two decimal places, half to even, as Python round(x, 2). -/
def round2 (x : ℚ) : ℚ := (roundHalfEven (100 * x) : ℚ) / 100

/-- Base fare constant, app.py line 18: `BASE_FARE_USD = 2.00`. -/
def BASE_FARE_USD : ℚ := 2

/-- Per-kilometer rate, app.py line 19: `COST_PER_KM_USD = 0.50`. -/
def COST_PER_KM_USD : ℚ := 1/2

/-- Per-minute rate, app.py line 20: `COST_PER_MINUTE_USD = 0.20`. -/
def COST_PER_MINUTE_USD : ℚ := 1/5

/-- Cost formula, app.py lines 67 to 71 (`calculate_cost`). -/
def calculate_cost (total_distance_km total_duration_minutes : ℚ) : ℚ :=
  round2 (BASE_FARE_USD
    + total_distance_km * COST_PER_KM_USD
    + total_duration_minutes * COST_PER_MINUTE_USD)

/-- One element of a distance-matrix row: its own status and the raw
`distance.value` (meters) and `duration.value` (seconds). -/
structure MatrixElement where
  status : String
  distanceValue : ℚ
  durationValue : ℚ
deriving DecidableEq

/-- One row of the distance-matrix payload. -/
structure MatrixRow where
  elements : List MatrixElement
deriving DecidableEq

/-- Parsed distance-matrix JSON payload: top-level status and rows. -/
structure MatrixData where
  status : String
  rows : List MatrixRow
deriving DecidableEq

/-- What one outbound provider call yields, at the transport level. -/
inductive ProviderResponse where
  /-- A `requests` exception: network failure or a 4xx/5xx HTTP status
  (raised by `raise_for_status`), with the exception message. -/
  | transportError (msg : String)
  /-- The call to `response.json()` raised `ValueError`: body not JSON. -/
  | parseError
  /-- A parsed JSON payload. -/
  | payload (data : MatrixData)
deriving DecidableEq

/-- Outcome of one leg resolution: the Python triple `(dist, dur, err)` in
which exactly one of `(dist, dur)` and `err` is meaningful. -/
inductive LegResult where
  | ok (distance_km duration_minutes : ℚ)
  | failure (err : String)
deriving DecidableEq

/-- Whether a leg resolution succeeded. -/
def LegResult.isOk : LegResult → Bool
  | .ok _ _ => true
  | .failure _ => false

/-- Leg resolver, app.py lines 23 to 64 (`get_distance_and_duration`), with
the ambient `GOOGLE_MAPS_API_KEY` and the transport-level outcome of the
single outbound call made explicit as parameters. -/
def get_distance_and_duration (apiKey : Option String)
    (origin destination : String) (resp : ProviderResponse) : LegResult :=
  match apiKey with
  | none => .failure "API key not configured on backend."
  | some _ =>
    match resp with
    | .transportError e => .failure ("Network or API request error: " ++ e)
    | .parseError => .failure "Failed to parse API response as JSON."
    | .payload data =>
      match data.status == "OK", data.rows with
      | true, row :: _ =>
        match row.elements with
        | element :: _ =>
          if element.status == "OK" then
            .ok (element.distanceValue / 1000) (element.durationValue / 60)
          else
            .failure ("Distance Matrix API element status: " ++ element.status)
        | [] => .failure ("Distance Matrix API status: " ++ data.status)
      | _, _ => .failure ("Distance Matrix API status: " ++ data.status)

/-- Environment variables read at process start, app.py lines 13 to 14. -/
structure Env where
  fixedOriginEnv : Option String
  googleMapsApiKeyEnv : Option String

/-- Fixed origin, app.py line 13: the FIXED_ORIGIN environment variable with
fallback "Harare, Zimbabwe" when unset. -/
def FIXED_ORIGIN (env : Env) : String :=
  env.fixedOriginEnv.getD "Harare, Zimbabwe"

/-- Inbound JSON body fields as read by `book_ride`, app.py lines 81 to 87.
An absent field is `none`; `additionalDestinations` defaults to `[]`. -/
structure BookingRequest where
  name : Option String
  email : Option String
  phone : Option String
  pickupLocation : Option String
  primaryDestination : Option String
  additionalDestinations : List String
  passengerRequests : Option String
deriving DecidableEq

/-- Python truthiness of an optional string: `None` and `""` are falsy. -/
def truthy : Option String → Bool
  | none => false
  | some s => !s.isEmpty

/-- The validation check of app.py line 89:
`all([name, email, phone, pickup_location, primary_destination])`. -/
def requiredFieldsPresent (req : BookingRequest) : Bool :=
  truthy req.name && truthy req.email && truthy req.phone
    && truthy req.pickupLocation && truthy req.primaryDestination

/-- One entry of `calculated_legs`, app.py lines 103 to 108: the endpoints
and the per-leg distance and duration, each rounded to two decimals. -/
structure Leg where
  from_ : String
  to_ : String
  distance_km : ℚ
  duration_minutes : ℚ
deriving DecidableEq

/-- The `booking_details` object of the 200 response, app.py lines 148
to 160: echoed request fields plus the computed totals, cost and legs. -/
structure BookingDetails where
  name : Option String
  email : Option String
  phone : Option String
  pickupLocation : Option String
  primaryDestination : Option String
  additionalDestinations : List String
  passengerRequests : Option String
  total_distance_km : ℚ
  total_duration_minutes : ℚ
  estimated_cost_usd : ℚ
  calculated_legs : List Leg
deriving DecidableEq

/-- HTTP response of the `/book-ride` endpoint: 200 with booking details,
400 with an error message, or 500 with an error message. -/
inductive HttpResponse where
  | ok (details : BookingDetails)
  | badRequest (error : String)
  | serverError (error : String)
deriving DecidableEq

/-- Numeric HTTP status code of a response. -/
def HttpResponse.statusCode : HttpResponse → ℕ
  | .ok _ => 200
  | .badRequest _ => 400
  | .serverError _ => 500

/-- Booking details of a 200 response, if any. -/
def quoteOf : HttpResponse → Option BookingDetails
  | .ok details => some details
  | _ => none

/-- The loop over `additional_destinations`, app.py lines 128 to 141,
threading the current origin, the running totals and the legs list; returns
either the final accumulators or the error message of the first failing leg,
together with the trace of resolver calls the loop made. -/
def additionalLoop (resolve : String → String → LegResult) :
    String → List String → ℚ → ℚ → List Leg →
      Except String (ℚ × ℚ × List Leg) × List (String × String)
  | _, [], total_distance_km, total_duration_minutes, calculated_legs =>
      (.ok (total_distance_km, total_duration_minutes, calculated_legs), [])
  | current, dest :: rest, total_distance_km, total_duration_minutes,
      calculated_legs =>
      match resolve current dest with
      | .failure err =>
          (.error ("Error calculating distance for additional destination \x27"
              ++ dest ++ "\x27: " ++ err), [(current, dest)])
      | .ok dist dur =>
          let next := additionalLoop resolve dest rest
            (total_distance_km + dist) (total_duration_minutes + dur)
            (calculated_legs ++ [⟨current, dest, round2 dist, round2 dur⟩])
          (next.1, (current, dest) :: next.2)

/-- The `/book-ride` handler, app.py lines 75 to 163. `data` is the parsed
JSON body (`none` when `request.get_json()` yields nothing). Returns the
HTTP response together with the ordered trace of resolver calls made. -/
def book_ride (env : Env) (resolve : String → String → LegResult)
    (data : Option BookingRequest) :
    HttpResponse × List (String × String) :=
  match data with
  | none => (.badRequest "Invalid JSON data", [])
  | some req =>
    if requiredFieldsPresent req then
      let pickup_location := req.pickupLocation.getD ""
      let primary_destination := req.primaryDestination.getD ""
      match resolve (FIXED_ORIGIN env) pickup_location with
      | .failure err =>
          (.serverError ("Error calculating distance to pickup: " ++ err),
           [(FIXED_ORIGIN env, pickup_location)])
      | .ok dist1 dur1 =>
        match resolve pickup_location primary_destination with
        | .failure err =>
            (.serverError
              ("Error calculating distance to primary destination: " ++ err),
             [(FIXED_ORIGIN env, pickup_location),
              (pickup_location, primary_destination)])
        | .ok dist2 dur2 =>
          let leg1 : Leg :=
            ⟨FIXED_ORIGIN env, pickup_location, round2 dist1, round2 dur1⟩
          let leg2 : Leg :=
            ⟨pickup_location, primary_destination, round2 dist2, round2 dur2⟩
          let loop := additionalLoop resolve primary_destination
            req.additionalDestinations (0 + dist1 + dist2) (0 + dur1 + dur2)
            [leg1, leg2]
          let trace := (FIXED_ORIGIN env, pickup_location)
            :: (pickup_location, primary_destination) :: loop.2
          match loop.1 with
          | .error msg => (.serverError msg, trace)
          | .ok (total_distance_km, total_duration_minutes, calculated_legs) =>
              (.ok {
                name := req.name
                email := req.email
                phone := req.phone
                pickupLocation := req.pickupLocation
                primaryDestination := req.primaryDestination
                additionalDestinations := req.additionalDestinations
                passengerRequests := req.passengerRequests
                total_distance_km := round2 total_distance_km
                total_duration_minutes := round2 total_duration_minutes
                estimated_cost_usd :=
                  calculate_cost total_distance_km total_duration_minutes
                calculated_legs := calculated_legs }, trace)
    else
      (.badRequest
        "Missing required fields (name, email, phone, pickupLocation, primaryDestination)",
       [])

/-- The ordered stop sequence a request induces (spec section 4.2): the code
resolves exactly the consecutive pairs of this list, app.py lines 96 to 141. -/
def stops (env : Env) (req : BookingRequest) : List String :=
  FIXED_ORIGIN env :: req.pickupLocation.getD ""
    :: req.primaryDestination.getD "" :: req.additionalDestinations

/-- Consecutive pairs of a list of stops. -/
def consecutivePairs : List String → List (String × String)
  | a :: b :: rest => (a, b) :: consecutivePairs (b :: rest)
  | _ => []

/-- Raw (unrounded) results of resolving a chain of destinations starting
from `current`: `some` of the per-leg records `(from, to, dist, dur)` when
every resolution succeeds, `none` as soon as one fails. -/
def chainResolve (resolve : String → String → LegResult) :
    String → List String → Option (List (String × String × ℚ × ℚ))
  | _, [] => some []
  | current, dest :: rest =>
      match resolve current dest with
      | .failure _ => none
      | .ok dist dur =>
          (chainResolve resolve dest rest).map
            (fun l => (current, dest, dist, dur) :: l)

/-- Sum of the raw per-leg distances of a resolved chain. -/
def sumDist (l : List (String × String × ℚ × ℚ)) : ℚ :=
  (l.map fun x => x.2.2.1).sum

/-- Sum of the raw per-leg durations of a resolved chain. -/
def sumDur (l : List (String × String × ℚ × ℚ)) : ℚ :=
  (l.map fun x => x.2.2.2).sum

/-- The `calculated_legs` entry built from one raw resolved leg. -/
def mkLeg (x : String × String × ℚ × ℚ) : Leg :=
  ⟨x.1, x.2.1, round2 x.2.2.1, round2 x.2.2.2⟩

/-- Origin-destination pairs of a resolved chain. -/
def pairsOf (l : List (String × String × ℚ × ℚ)) : List (String × String) :=
  l.map fun x => (x.1, x.2.1)

/-- Error message the handler returns when the leg at position `k` of the
pair sequence fails with cause `err` (`dest` is the destination of that
leg), app.py lines 99, 115 and 131. -/
def legErrorMessage (k : ℕ) (dest err : String) : String :=
  match k with
  | 0 => "Error calculating distance to pickup: " ++ err
  | 1 => "Error calculating distance to primary destination: " ++ err
  | _ => "Error calculating distance for additional destination \x27"
      ++ dest ++ "\x27: " ++ err

/-! ### Helper lemmas -/

theorem LegResult.isOk_iff (r : LegResult) :
    r.isOk = true ↔ ∃ d t, r = .ok d t := by
  cases r <;> simp [LegResult.isOk]

theorem consecutivePairs_length (l : List String) :
    (consecutivePairs l).length = l.length - 1 := by
  match l with
  | [] => rfl
  | [a] => rfl
  | a :: b :: rest =>
      rw [consecutivePairs]
      simp [consecutivePairs_length (b :: rest)]

theorem chainResolve_pairs (resolve : String → String → LegResult) :
    ∀ (dests : List String) (current : String)
      (rl : List (String × String × ℚ × ℚ)),
      chainResolve resolve current dests = some rl →
      pairsOf rl = consecutivePairs (current :: dests) ∧
        rl.length = dests.length
  | [], current, rl, h => by
      simp only [chainResolve, Option.some.injEq] at h
      subst h
      simp [pairsOf, consecutivePairs]
  | dest :: rest, current, rl, h => by
      rw [chainResolve] at h
      cases hres : resolve current dest with
      | failure err => rw [hres] at h; simp at h
      | ok dist dur =>
          rw [hres] at h
          cases hc : chainResolve resolve dest rest with
          | none => rw [hc] at h; simp at h
          | some rl0 =>
              rw [hc] at h
              simp only [Option.map_some', Option.some.injEq] at h
              subst h
              have ih := chainResolve_pairs resolve rest dest rl0 hc
              rw [consecutivePairs]
              constructor
              · simp only [pairsOf, List.map_cons]
                exact congrArg (List.cons (current, dest))
                  (by simpa [pairsOf] using ih.1)
              · simp [ih.2]

theorem additionalLoop_ok (resolve : String → String → LegResult) :
    ∀ (dests : List String) (current : String) (td tt : ℚ) (legs : List Leg)
      (rl : List (String × String × ℚ × ℚ)),
      chainResolve resolve current dests = some rl →
      additionalLoop resolve current dests td tt legs =
        (.ok (td + sumDist rl, tt + sumDur rl, legs ++ rl.map mkLeg),
         pairsOf rl)
  | [], current, td, tt, legs, rl, h => by
      simp only [chainResolve, Option.some.injEq] at h
      subst h
      simp [additionalLoop, sumDist, sumDur, pairsOf]
  | dest :: rest, current, td, tt, legs, rl, h => by
      rw [chainResolve] at h
      cases hres : resolve current dest with
      | failure err => rw [hres] at h; simp at h
      | ok dist dur =>
          rw [hres] at h
          cases hc : chainResolve resolve dest rest with
          | none => rw [hc] at h; simp at h
          | some rl0 =>
              rw [hc] at h
              simp only [Option.map_some', Option.some.injEq] at h
              subst h
              have ih := additionalLoop_ok resolve rest dest (td + dist)
                (tt + dur)
                (legs ++ [⟨current, dest, round2 dist, round2 dur⟩]) rl0 hc
              rw [additionalLoop, hres]
              simp only [ih]
              simp only [sumDist, sumDur, pairsOf, mkLeg, List.map_cons,
                List.sum_cons, List.append_assoc, List.singleton_append,
                Prod.mk.injEq, Except.ok.injEq]
              exact ⟨⟨by ring, by ring, by trivial⟩, by trivial⟩

theorem additionalLoop_inv (resolve : String → String → LegResult) :
    ∀ (dests : List String) (current : String) (td tt : ℚ) (legs : List Leg)
      (r : ℚ × ℚ × List Leg),
      (additionalLoop resolve current dests td tt legs).1 = .ok r →
      ∃ rl, chainResolve resolve current dests = some rl
  | [], current, td, tt, legs, r, _ => ⟨[], rfl⟩
  | dest :: rest, current, td, tt, legs, r, h => by
      rw [additionalLoop] at h
      cases hres : resolve current dest with
      | failure err => rw [hres] at h; simp at h
      | ok dist dur =>
          rw [hres] at h
          simp only at h
          obtain ⟨rl0, hrl0⟩ := additionalLoop_inv resolve rest dest
            (td + dist) (tt + dur)
            (legs ++ [⟨current, dest, round2 dist, round2 dur⟩]) r h
          exact ⟨(current, dest, dist, dur) :: rl0,
            by rw [chainResolve, hres, hrl0]; rfl⟩

theorem book_ride_ok (env : Env) (resolve : String → String → LegResult)
    (req : BookingRequest) (d1 t1 d2 t2 : ℚ)
    (rl : List (String × String × ℚ × ℚ))
    (hreq : requiredFieldsPresent req = true)
    (h1 : resolve (FIXED_ORIGIN env) (req.pickupLocation.getD "")
      = .ok d1 t1)
    (h2 : resolve (req.pickupLocation.getD "")
      (req.primaryDestination.getD "") = .ok d2 t2)
    (h3 : chainResolve resolve (req.primaryDestination.getD "")
      req.additionalDestinations = some rl) :
    book_ride env resolve (some req) =
      (.ok {
        name := req.name
        email := req.email
        phone := req.phone
        pickupLocation := req.pickupLocation
        primaryDestination := req.primaryDestination
        additionalDestinations := req.additionalDestinations
        passengerRequests := req.passengerRequests
        total_distance_km := round2 (0 + d1 + d2 + sumDist rl)
        total_duration_minutes := round2 (0 + t1 + t2 + sumDur rl)
        estimated_cost_usd :=
          calculate_cost (0 + d1 + d2 + sumDist rl) (0 + t1 + t2 + sumDur rl)
        calculated_legs :=
          ⟨FIXED_ORIGIN env, req.pickupLocation.getD "", round2 d1, round2 t1⟩
            :: ⟨req.pickupLocation.getD "", req.primaryDestination.getD "",
                round2 d2, round2 t2⟩ :: rl.map mkLeg },
       consecutivePairs (stops env req)) := by
  have hloop := additionalLoop_ok resolve req.additionalDestinations
    (req.primaryDestination.getD "") (0 + d1 + d2) (0 + t1 + t2)
    [⟨FIXED_ORIGIN env, req.pickupLocation.getD "", round2 d1, round2 t1⟩,
     ⟨req.pickupLocation.getD "", req.primaryDestination.getD "",
       round2 d2, round2 t2⟩] rl h3
  have hpairs := (chainResolve_pairs resolve req.additionalDestinations
    (req.primaryDestination.getD "") rl h3).1
  rw [book_ride]
  simp only [hreq, if_true, h1, h2, hloop, hpairs]
  rw [stops, consecutivePairs, consecutivePairs]
  rfl

theorem book_ride_ok_inv (env : Env) (resolve : String → String → LegResult)
    (req : BookingRequest) (details : BookingDetails)
    (h : (book_ride env resolve (some req)).1 = .ok details) :
    requiredFieldsPresent req = true ∧
    ∃ d1 t1 d2 t2 rl,
      resolve (FIXED_ORIGIN env) (req.pickupLocation.getD "") = .ok d1 t1 ∧
      resolve (req.pickupLocation.getD "")
        (req.primaryDestination.getD "") = .ok d2 t2 ∧
      chainResolve resolve (req.primaryDestination.getD "")
        req.additionalDestinations = some rl := by
  by_cases hreq : requiredFieldsPresent req = true
  · refine ⟨hreq, ?_⟩
    cases h1 : resolve (FIXED_ORIGIN env) (req.pickupLocation.getD "") with
    | failure e => rw [book_ride] at h; simp [hreq, h1] at h
    | ok d1 t1 =>
      cases h2 : resolve (req.pickupLocation.getD "")
          (req.primaryDestination.getD "") with
      | failure e => rw [book_ride] at h; simp [hreq, h1, h2] at h
      | ok d2 t2 =>
        rw [book_ride] at h
        simp only [hreq, if_true, h1, h2] at h
        cases hl : (additionalLoop resolve (req.primaryDestination.getD "")
            req.additionalDestinations (0 + d1 + d2) (0 + t1 + t2)
            [⟨FIXED_ORIGIN env, req.pickupLocation.getD "",
                round2 d1, round2 t1⟩,
             ⟨req.pickupLocation.getD "", req.primaryDestination.getD "",
                round2 d2, round2 t2⟩]).1 with
        | error msg => rw [hl] at h; simp at h
        | ok r =>
            obtain ⟨rl, hrl⟩ := additionalLoop_inv resolve
              req.additionalDestinations (req.primaryDestination.getD "")
              _ _ _ r hl
            exact ⟨d1, t1, d2, t2, rl, rfl, rfl, hrl⟩
  · rw [book_ride, if_neg hreq] at h
    simp at h

theorem additionalLoop_fail (resolve : String → String → LegResult) :
    ∀ (dests : List String) (current : String) (td tt : ℚ) (legs : List Leg)
      (k : ℕ) (p : String × String) (err : String),
      (consecutivePairs (current :: dests))[k]? = some p →
      (∀ i q, i < k → (consecutivePairs (current :: dests))[i]? = some q →
        (resolve q.1 q.2).isOk = true) →
      resolve p.1 p.2 = .failure err →
      additionalLoop resolve current dests td tt legs =
        (.error ("Error calculating distance for additional destination \x27"
            ++ p.2 ++ "\x27: " ++ err),
         (consecutivePairs (current :: dests)).take (k + 1))
  | [], current, td, tt, legs, k, p, err, hp, _, _ => by
      simp [consecutivePairs] at hp
  | dest :: rest, current, td, tt, legs, 0, p, err, hp, _, hfail => by
      rw [consecutivePairs] at hp ⊢
      simp only [List.getElem?_cons_zero, Option.some.injEq] at hp
      subst hp
      rw [additionalLoop, hfail]
      simp
  | dest :: rest, current, td, tt, legs, k + 1, p, err, hp, hprev, hfail => by
      have h0 : (resolve current dest).isOk = true := by
        apply hprev 0 (current, dest) (Nat.succ_pos k)
        rw [consecutivePairs]
        simp
      obtain ⟨dist, dur, hres⟩ := (LegResult.isOk_iff _).1 h0
      rw [consecutivePairs] at hp
      simp only [List.getElem?_cons_succ] at hp
      have hprev' : ∀ i q, i < k →
          (consecutivePairs (dest :: rest))[i]? = some q →
          (resolve q.1 q.2).isOk = true := by
        intro i q hi hq
        apply hprev (i + 1) q (Nat.succ_lt_succ hi)
        rw [consecutivePairs]
        simpa using hq
      have ih := additionalLoop_fail resolve rest dest (td + dist) (tt + dur)
        (legs ++ [⟨current, dest, round2 dist, round2 dur⟩]) k p err hp
        hprev' hfail
      rw [additionalLoop, hres]
      simp only [ih]
      rw [consecutivePairs]
      simp

theorem book_ride_fail (env : Env) (resolve : String → String → LegResult)
    (req : BookingRequest) (k : ℕ) (p : String × String) (err : String)
    (hreq : requiredFieldsPresent req = true)
    (hp : (consecutivePairs (stops env req))[k]? = some p)
    (hprev : ∀ i q, i < k → (consecutivePairs (stops env req))[i]? = some q →
      (resolve q.1 q.2).isOk = true)
    (hfail : resolve p.1 p.2 = .failure err) :
    book_ride env resolve (some req) =
      (.serverError (legErrorMessage k p.2 err),
       (consecutivePairs (stops env req)).take (k + 1)) := by
  have hexp : consecutivePairs (stops env req)
      = (FIXED_ORIGIN env, req.pickupLocation.getD "")
        :: (req.pickupLocation.getD "", req.primaryDestination.getD "")
        :: consecutivePairs (req.primaryDestination.getD ""
            :: req.additionalDestinations) := by
    rw [stops, consecutivePairs, consecutivePairs]
  match k with
  | 0 =>
      rw [hexp] at hp
      simp only [List.getElem?_cons_zero, Option.some.injEq] at hp
      subst hp
      rw [book_ride]
      simp only [hreq, if_true, hfail]
      rw [hexp, legErrorMessage]
      simp
  | 1 =>
      have h0 : (resolve (FIXED_ORIGIN env)
          (req.pickupLocation.getD "")).isOk = true := by
        apply hprev 0 (FIXED_ORIGIN env, req.pickupLocation.getD "") one_pos
        rw [hexp]; simp
      obtain ⟨d1, t1, h1⟩ := (LegResult.isOk_iff _).1 h0
      rw [hexp] at hp
      simp only [List.getElem?_cons_succ, List.getElem?_cons_zero,
        Option.some.injEq] at hp
      subst hp
      rw [book_ride]
      simp only [hreq, if_true, h1, hfail]
      rw [hexp, legErrorMessage]
      simp
  | k + 2 =>
      have h0 : (resolve (FIXED_ORIGIN env)
          (req.pickupLocation.getD "")).isOk = true := by
        apply hprev 0 (FIXED_ORIGIN env, req.pickupLocation.getD "")
          (by omega)
        rw [hexp]; simp
      obtain ⟨d1, t1, h1⟩ := (LegResult.isOk_iff _).1 h0
      have h0' : (resolve (req.pickupLocation.getD "")
          (req.primaryDestination.getD "")).isOk = true := by
        apply hprev 1
          (req.pickupLocation.getD "", req.primaryDestination.getD "")
          (by omega)
        rw [hexp]; simp
      obtain ⟨d2, t2, h2⟩ := (LegResult.isOk_iff _).1 h0'
      rw [hexp] at hp
      simp only [List.getElem?_cons_succ] at hp
      have hprev' : ∀ i q, i < k →
          (consecutivePairs (req.primaryDestination.getD ""
            :: req.additionalDestinations))[i]? = some q →
          (resolve q.1 q.2).isOk = true := by
        intro i q hi hq
        apply hprev (i + 2) q (by omega)
        rw [hexp]
        simpa using hq
      have hloop := additionalLoop_fail resolve req.additionalDestinations
        (req.primaryDestination.getD "") (0 + d1 + d2) (0 + t1 + t2)
        [⟨FIXED_ORIGIN env, req.pickupLocation.getD "", round2 d1, round2 t1⟩,
         ⟨req.pickupLocation.getD "", req.primaryDestination.getD "",
           round2 d2, round2 t2⟩] k p err hp hprev' hfail
      rw [book_ride]
      simp only [hreq, if_true, h1, h2, hloop]
      rw [hexp]
      simp [legErrorMessage]

theorem book_ride_cases (env : Env) (resolve : String → String → LegResult)
    (req : BookingRequest) (hreq : requiredFieldsPresent req = true) :
    (∃ details trace,
      book_ride env resolve (some req) = (.ok details, trace)) ∨
    (∃ msg trace,
      book_ride env resolve (some req) = (.serverError msg, trace)) := by
  rw [book_ride]
  simp only [hreq, if_true]
  split
  · right; exact ⟨_, _, rfl⟩
  · split
    · right; exact ⟨_, _, rfl⟩
    · split
      · right; exact ⟨_, _, rfl⟩
      · left; exact ⟨_, _, rfl⟩

theorem book_ride_trace_head (env : Env)
    (resolve : String → String → LegResult) (req : BookingRequest)
    (hreq : requiredFieldsPresent req = true) :
    ∃ rest, (book_ride env resolve (some req)).2
      = (FIXED_ORIGIN env, req.pickupLocation.getD "") :: rest := by
  rw [book_ride]
  simp only [hreq, if_true]
  split
  · exact ⟨_, rfl⟩
  · split
    · exact ⟨_, rfl⟩
    · split
      · exact ⟨_, rfl⟩
      · exact ⟨_, rfl⟩

/-! ### Concrete fixtures -/

/-- Environment in which the FIXED_ORIGIN variable is unset, so the
fallback fixed origin applies; an API key is configured. -/
def envUnset : Env :=
  { fixedOriginEnv := none, googleMapsApiKeyEnv := some "test-key" }

/-- A valid request with pickup "A", primary destination "B" and one
additional destination "C". -/
def reqABC : BookingRequest :=
  { name := some "Jane"
    email := some "jane@example.com"
    phone := some "555"
    pickupLocation := some "A"
    primaryDestination := some "B"
    additionalDestinations := ["C"]
    passengerRequests := none }

/-- A valid request with pickup "A", primary destination "B" and no
additional destinations. -/
def reqAB : BookingRequest :=
  { reqABC with additionalDestinations := [] }

/-- A request with all fields of `reqABC` except that `name` is absent. -/
def reqNoName : BookingRequest :=
  { reqABC with name := none }

/-- A request with all fields of `reqABC` except that `pickupLocation`
is absent. -/
def reqNoPickup : BookingRequest :=
  { reqABC with pickupLocation := none }

/-- A valid request whose `additionalDestinations` contains one empty
string. -/
def reqEmptyDest : BookingRequest :=
  { reqABC with additionalDestinations := [""] }

/-- Resolver oracle of the worked example: the leg (A, B) is 10 km and
15 min, the leg (B, C) is 5 km and 10 min, and every other leg resolves
to 0 km and 0 min. -/
def resolveC1 : String → String → LegResult := fun o d =>
  if o = "A" ∧ d = "B" then .ok 10 15
  else if o = "B" ∧ d = "C" then .ok 5 10
  else .ok 0 0

/-- Resolver oracle with every leg 1.004 km and 1.004 min, so that per-leg
two-decimal rounding and rounding of the sum disagree. -/
def resolveC7 : String → String → LegResult := fun _ _ =>
  .ok (251/250) (251/250)

/-- Provider payload carrying a single OK element with the given raw
meter and second values. -/
def okPayload (meters seconds : ℚ) : ProviderResponse :=
  .payload ⟨"OK", [⟨[⟨"OK", meters, seconds⟩]⟩]⟩

/-- Provider payload whose single element has the non-OK status
NOT_FOUND. -/
def notFoundPayload : ProviderResponse :=
  .payload ⟨"OK", [⟨[⟨"NOT_FOUND", 0, 0⟩]⟩]⟩

/-- Network behavior in which the leg from "A" to "B" is answered with a
NOT_FOUND element and every other leg resolves to 10 km, 15 min. -/
def netC4 : String → String → ProviderResponse := fun o d =>
  if o = "A" ∧ d = "B" then notFoundPayload else okPayload 10000 900

/-- The leg resolver backed by `netC4` with a configured API key. -/
def resolveC4 : String → String → LegResult := fun o d =>
  get_distance_and_duration (some "test-key") o d (netC4 o d)

/-- Booking details the example request yields under `resolveC1` with the
fallback fixed origin: three legs, 15 km, 25 min, 14.50 USD. -/
def detailsABC : BookingDetails :=
  { name := some "Jane"
    email := some "jane@example.com"
    phone := some "555"
    pickupLocation := some "A"
    primaryDestination := some "B"
    additionalDestinations := ["C"]
    passengerRequests := none
    total_distance_km := 15
    total_duration_minutes := 25
    estimated_cost_usd := 29/2
    calculated_legs :=
      [⟨"Harare, Zimbabwe", "A", 0, 0⟩, ⟨"A", "B", 10, 15⟩,
       ⟨"B", "C", 5, 10⟩] }

theorem bookride_ABC :
    book_ride envUnset resolveC1 (some reqABC)
      = (.ok detailsABC,
         [("Harare, Zimbabwe", "A"), ("A", "B"), ("B", "C")]) := by
  rw [book_ride_ok envUnset resolveC1 reqABC 0 0 10 15 [("B", "C", 5, 10)]
    rfl rfl rfl rfl]
  rw [Prod.mk.injEq]
  constructor
  · rw [HttpResponse.ok.injEq]
    rw [detailsABC]
    rw [BookingDetails.mk.injEq]
    simp only [mkLeg, sumDist, sumDur, List.map_cons, List.map_nil,
      List.sum_cons, List.sum_nil]
    norm_num [round2, roundHalfEven, calculate_cost, BASE_FARE_USD,
      COST_PER_KM_USD, COST_PER_MINUTE_USD, reqABC, envUnset, FIXED_ORIGIN]
  · rw [stops]
    simp [consecutivePairs, envUnset, FIXED_ORIGIN, reqABC]

/-! ### Claims -/

/-- C1, counterexample: with the FIXED_ORIGIN environment variable unset,
the request pickup="A", primaryDestination="B",
additionalDestinations=["C"] does NOT yield the stop sequence [A, B, C]
with exactly the two legs (A, B) and (B, C): the code unconditionally
prepends the fallback fixed origin "Harare, Zimbabwe", so the stop
sequence is [Harare, A, B, C] and three legs are resolved. -/
theorem C1_counterexample :
    stops envUnset reqABC ≠ ["A", "B", "C"] ∧
    (book_ride envUnset resolveC1 (some reqABC)).2
      ≠ [("A", "B"), ("B", "C")] ∧
    (quoteOf (book_ride envUnset resolveC1 (some reqABC)).1).map
        (fun det => det.calculated_legs.length) = some 3 := by
  refine ⟨?_, ?_, ?_⟩
  · rw [stops]
    simp [envUnset, FIXED_ORIGIN, reqABC]
  · rw [bookride_ABC]
    simp
  · rw [bookride_ABC]
    rw [quoteOf]
    rw [detailsABC]
    simp

/-- C1, amended: with FIXED_ORIGIN unset the fallback origin
"Harare, Zimbabwe" is prepended, so the stop sequence is
[Harare Zimbabwe, A, B, C] and the three legs (Harare, A), (A, B), (B, C)
are resolved; when the fixed-origin leg resolves to 0 km / 0 min and the
other legs to 10 km / 15 min and 5 km / 10 min, the quote has
total_distance_km = 15, total_duration_minutes = 25 and
estimated_cost = 14.50. -/
theorem C1_amended :
    stops envUnset reqABC = ["Harare, Zimbabwe", "A", "B", "C"] ∧
    (book_ride envUnset resolveC1 (some reqABC)).2
      = [("Harare, Zimbabwe", "A"), ("A", "B"), ("B", "C")] ∧
    (quoteOf (book_ride envUnset resolveC1 (some reqABC)).1).map
        (fun det => (det.calculated_legs.map fun l => (l.from_, l.to_),
          det.total_distance_km, det.total_duration_minutes,
          det.estimated_cost_usd))
      = some ([("Harare, Zimbabwe", "A"), ("A", "B"), ("B", "C")],
          15, 25, 29/2) := by
  refine ⟨?_, ?_, ?_⟩
  · rw [stops]
    simp [envUnset, FIXED_ORIGIN, reqABC]
  · rw [bookride_ABC]
  · rw [bookride_ABC]
    rw [quoteOf]
    rw [detailsABC]
    simp

/-- C2: whenever a request succeeds, the itinerary has N ≥ 2 stops, the
resolver was invoked exactly N − 1 times, once per consecutive stop pair
in strict left-to-right order (the call trace IS the list of consecutive
pairs), and the resulting legs list has length N − 1. -/
theorem C2_aggregator_calls (env : Env)
    (resolve : String → String → LegResult) (req : BookingRequest)
    (details : BookingDetails)
    (h : (book_ride env resolve (some req)).1 = .ok details) :
    2 ≤ (stops env req).length ∧
    (book_ride env resolve (some req)).2
      = consecutivePairs (stops env req) ∧
    (book_ride env resolve (some req)).2.length
      = (stops env req).length - 1 ∧
    details.calculated_legs.length = (stops env req).length - 1 := by
  obtain ⟨hreq, d1, t1, d2, t2, rl, h1, h2, h3⟩ :=
    book_ride_ok_inv env resolve req details h
  have hok := book_ride_ok env resolve req d1 t1 d2 t2 rl hreq h1 h2 h3
  have hlen := (chainResolve_pairs resolve req.additionalDestinations
    (req.primaryDestination.getD "") rl h3).2
  rw [hok] at h
  injection h with hdet
  refine ⟨?_, ?_, ?_, ?_⟩
  · rw [stops]
    simp
  · rw [hok]
  · rw [hok]
    simp only [consecutivePairs_length]
  · rw [← hdet]
    rw [stops]
    simp [hlen]

theorem C2_witness :
    2 ≤ (stops envUnset reqABC).length ∧
    (book_ride envUnset resolveC1 (some reqABC)).2
      = consecutivePairs (stops envUnset reqABC) ∧
    (book_ride envUnset resolveC1 (some reqABC)).2.length
      = (stops envUnset reqABC).length - 1 ∧
    detailsABC.calculated_legs.length = (stops envUnset reqABC).length - 1 :=
  C2_aggregator_calls envUnset resolveC1 reqABC detailsABC
    (by rw [bookride_ABC])

/-- C3: the estimated cost is round(base_fare + rate_km · distance
+ rate_minute · duration, 2) for all non-negative totals, with the
compiled-in pricing constants 2.00, 0.50 and 0.20; the computation is a
pure function of the two totals. -/
theorem C3_cost_formula (d t : ℚ) (hd : 0 ≤ d) (ht : 0 ≤ t) :
    calculate_cost d t
      = round2 (BASE_FARE_USD + COST_PER_KM_USD * d
          + COST_PER_MINUTE_USD * t) ∧
    BASE_FARE_USD = 2 ∧ COST_PER_KM_USD = 1/2 ∧ COST_PER_MINUTE_USD = 1/5
    := by
  refine ⟨?_, rfl, rfl, rfl⟩
  rw [calculate_cost]
  congr 1
  ring

theorem C3_witness :
    (0 : ℚ) ≤ 15 ∧ (0 : ℚ) ≤ 25 ∧ calculate_cost 15 25 = 29/2 := by
  have h := C3_cost_formula 15 25 (by norm_num) (by norm_num)
  refine ⟨by norm_num, by norm_num, ?_⟩
  rw [h.1]
  norm_num [round2, roundHalfEven, BASE_FARE_USD, COST_PER_KM_USD,
    COST_PER_MINUTE_USD]

/-- C5: a request in which `pickupLocation` or `primaryDestination` is
missing or empty is answered 400 with an error body, before any resolver
call is made (the call trace is empty). -/
theorem C5_missing_required_400 (env : Env)
    (resolve : String → String → LegResult) (req : BookingRequest)
    (h : truthy req.pickupLocation = false
      ∨ truthy req.primaryDestination = false) :
    (∃ msg, book_ride env resolve (some req) = (.badRequest msg, [])) ∧
    (book_ride env resolve (some req)).1.statusCode = 400 ∧
    (book_ride env resolve (some req)).2 = [] := by
  have hreq : requiredFieldsPresent req = false := by
    rw [requiredFieldsPresent]
    rcases h with h | h <;> simp [h]
  rw [book_ride, if_neg (by simp [hreq])]
  exact ⟨⟨_, rfl⟩, rfl, rfl⟩

theorem C5_witness :
    (truthy reqNoPickup.pickupLocation = false
      ∨ truthy reqNoPickup.primaryDestination = false) ∧
    (∃ msg, book_ride envUnset resolveC1 (some reqNoPickup)
      = (.badRequest msg, [])) ∧
    (book_ride envUnset resolveC1 (some reqNoPickup)).1.statusCode = 400 ∧
    (book_ride envUnset resolveC1 (some reqNoPickup)).2 = [] :=
  ⟨Or.inl rfl,
   C5_missing_required_400 envUnset resolveC1 reqNoPickup (Or.inl rfl)⟩

/-- C4: if the leg at position k of the pair sequence fails (the earlier
legs having succeeded), the whole request is answered 500 with the single
error message identifying that leg, no quote is produced, and exactly the
first k + 1 resolver calls were made — no call for any later leg. -/
theorem C4_abort_on_first_failure (env : Env)
    (resolve : String → String → LegResult) (req : BookingRequest)
    (k : ℕ) (p : String × String) (err : String)
    (hreq : requiredFieldsPresent req = true)
    (hp : (consecutivePairs (stops env req))[k]? = some p)
    (hprev : ∀ i q, i < k → (consecutivePairs (stops env req))[i]? = some q →
      (resolve q.1 q.2).isOk = true)
    (hfail : resolve p.1 p.2 = .failure err) :
    book_ride env resolve (some req)
      = (.serverError (legErrorMessage k p.2 err),
         (consecutivePairs (stops env req)).take (k + 1)) ∧
    (book_ride env resolve (some req)).1.statusCode = 500 ∧
    quoteOf (book_ride env resolve (some req)).1 = none ∧
    (book_ride env resolve (some req)).2.length = k + 1 := by
  have hmain := book_ride_fail env resolve req k p err hreq hp hprev hfail
  have hk : k < (consecutivePairs (stops env req)).length := by
    by_contra hk
    rw [List.getElem?_eq_none (by omega)] at hp
    exact Option.noConfusion hp
  refine ⟨hmain, ?_, ?_, ?_⟩ <;> rw [hmain]
  · rfl
  · rfl
  · simp only [List.length_take]
    omega

theorem C4_witness :
    book_ride envUnset resolveC4 (some reqABC)
      = (.serverError
          "Error calculating distance to primary destination: Distance Matrix API element status: NOT_FOUND",
         [("Harare, Zimbabwe", "A"), ("A", "B")]) ∧
    (book_ride envUnset resolveC4 (some reqABC)).2.length = 2 ∧
    quoteOf (book_ride envUnset resolveC4 (some reqABC)).1 = none := by
  have h := C4_abort_on_first_failure envUnset resolveC4 reqABC 1 ("A", "B")
    "Distance Matrix API element status: NOT_FOUND" rfl rfl
    (by
      intro i q hi hq
      interval_cases i
      rw [stops] at hq
      simp only [consecutivePairs] at hq
      simp only [List.getElem?_cons_zero, Option.some.injEq] at hq
      subst hq
      rfl)
    rfl
  refine ⟨?_, ?_, h.2.2.1⟩
  · rw [h.1]
    rfl
  · rw [h.2.2.2]

/-- C6, counterexample: the required fields are not only pickupLocation
and primaryDestination — a valid-JSON request with non-empty pickup and
primary destination but a missing `name` is rejected with 400 and no leg
is resolved. -/
theorem C6_counterexample :
    truthy reqNoName.pickupLocation = true ∧
    truthy reqNoName.primaryDestination = true ∧
    (book_ride envUnset resolveC1 (some reqNoName)).1.statusCode = 400 ∧
    (book_ride envUnset resolveC1 (some reqNoName)).2 = [] := by
  exact ⟨rfl, rfl, rfl, rfl⟩

/-- C6, amended: the required fields are name, email, phone,
pickupLocation and primaryDestination; a request in which any of the five
is missing or empty is answered 400 with no resolver call, and whenever
all five are present and non-empty validation passes and processing
proceeds to leg resolution (the first resolver call is made). -/
theorem C6_amended_required_fields (env : Env)
    (resolve : String → String → LegResult) (req : BookingRequest) :
    (requiredFieldsPresent req = false →
      book_ride env resolve (some req)
        = (.badRequest
            "Missing required fields (name, email, phone, pickupLocation, primaryDestination)",
           [])) ∧
    (requiredFieldsPresent req = true →
      ∃ rest, (book_ride env resolve (some req)).2
        = (FIXED_ORIGIN env, req.pickupLocation.getD "") :: rest) := by
  constructor
  · intro hreq
    rw [book_ride, if_neg (by simp [hreq])]
  · intro hreq
    exact book_ride_trace_head env resolve req hreq

theorem C6_witness :
    (requiredFieldsPresent reqNoName = false ∧
      book_ride envUnset resolveC1 (some reqNoName)
        = (.badRequest
            "Missing required fields (name, email, phone, pickupLocation, primaryDestination)",
           [])) ∧
    (requiredFieldsPresent reqABC = true ∧
      ∃ rest, (book_ride envUnset resolveC1 (some reqABC)).2
        = (FIXED_ORIGIN envUnset, reqABC.pickupLocation.getD "") :: rest) :=
  ⟨⟨rfl, (C6_amended_required_fields envUnset resolveC1 reqNoName).1 rfl⟩,
   ⟨rfl, (C6_amended_required_fields envUnset resolveC1 reqABC).2 rfl⟩⟩

/-- C7, counterexample: with two legs of 1.004 km and 1.004 min each, the
quoted total (2.01, rounded once from the exact sum 2.008) differs from
the sum of the per-leg values reported in calculated_legs (1.00 + 1.00
= 2.00), so the claimed equality fails. -/
theorem C7_counterexample :
    (quoteOf (book_ride envUnset resolveC7 (some reqAB)).1).map
        (fun det => (det.total_distance_km,
          (det.calculated_legs.map Leg.distance_km).sum,
          det.total_duration_minutes,
          (det.calculated_legs.map Leg.duration_minutes).sum))
      = some (201/100, 2, 201/100, 2) ∧
    (201/100 : ℚ) ≠ 2 := by
  constructor
  · rw [book_ride_ok envUnset resolveC7 reqAB (251/250) (251/250) (251/250)
      (251/250) [] rfl rfl rfl rfl]
    rw [quoteOf]
    simp only [Option.map_some', Option.some.injEq, List.map_nil,
      List.map_cons, List.sum_cons, List.sum_nil, sumDist, sumDur,
      Prod.mk.injEq]
    norm_num [round2, roundHalfEven]
  · norm_num

/-- C7, amended: in every successful quote the reported totals are a
single rounding of the exact (unrounded) sums of the raw per-leg values,
while the per-leg values in calculated_legs are each rounded
independently — so the totals need not equal the sum of the reported
per-leg values. -/
theorem C7_totals_single_rounding (env : Env)
    (resolve : String → String → LegResult) (req : BookingRequest)
    (d1 t1 d2 t2 : ℚ) (rl : List (String × String × ℚ × ℚ))
    (hreq : requiredFieldsPresent req = true)
    (h1 : resolve (FIXED_ORIGIN env) (req.pickupLocation.getD "")
      = .ok d1 t1)
    (h2 : resolve (req.pickupLocation.getD "")
      (req.primaryDestination.getD "") = .ok d2 t2)
    (h3 : chainResolve resolve (req.primaryDestination.getD "")
      req.additionalDestinations = some rl) :
    (quoteOf (book_ride env resolve (some req)).1).map
        (fun det => (det.total_distance_km, det.total_duration_minutes,
          det.calculated_legs.map Leg.distance_km,
          det.calculated_legs.map Leg.duration_minutes))
      = some (round2 (d1 + d2 + sumDist rl), round2 (t1 + t2 + sumDur rl),
          round2 d1 :: round2 d2 :: rl.map (fun x => round2 x.2.2.1),
          round2 t1 :: round2 t2 :: rl.map (fun x => round2 x.2.2.2)) := by
  rw [book_ride_ok env resolve req d1 t1 d2 t2 rl hreq h1 h2 h3]
  rw [quoteOf]
  simp only [Option.map_some', Option.some.injEq, List.map_cons,
    List.map_map, Prod.mk.injEq]
  refine ⟨by rw [zero_add], by rw [zero_add], ?_, ?_⟩ <;>
    simp [mkLeg, Function.comp]

theorem C7_witness :
    (quoteOf (book_ride envUnset resolveC7 (some reqAB)).1).map
        (fun det => (det.total_distance_km, det.total_duration_minutes,
          det.calculated_legs.map Leg.distance_km,
          det.calculated_legs.map Leg.duration_minutes))
      = some (round2 (251/250 + 251/250 + sumDist []),
          round2 (251/250 + 251/250 + sumDur []),
          [round2 (251/250), round2 (251/250)],
          [round2 (251/250), round2 (251/250)]) := by
  have h := C7_totals_single_rounding envUnset resolveC7 reqAB (251/250)
    (251/250) (251/250) (251/250) [] rfl rfl rfl rfl
  rw [h]
  simp

/-- C8: with a configured API key, the resolver returns
distance.value / 1000 km and duration.value / 60 min exactly when the
payload has top-level status OK and a first element with status OK; in
every other case — non-OK top-level or element status, missing rows or
elements, transport failure, unparseable response — it returns a Failure
carrying a message. -/
theorem C8_resolver_contract (key origin destination : String)
    (resp : ProviderResponse) :
    (∀ data row rs element es,
      resp = .payload data → data.rows = row :: rs →
      row.elements = element :: es →
      data.status = "OK" → element.status = "OK" →
      get_distance_and_duration (some key) origin destination resp
        = .ok (element.distanceValue / 1000) (element.durationValue / 60)) ∧
    ((¬ ∃ data row rs element es, resp = .payload data ∧
        data.rows = row :: rs ∧ row.elements = element :: es ∧
        data.status = "OK" ∧ element.status = "OK") →
      ∃ msg, get_distance_and_duration (some key) origin destination resp
        = .failure msg) := by
  constructor
  · intro data row rs element es hresp hr he hs hes
    subst hresp
    obtain ⟨st, rows⟩ := data
    simp only at hr hs
    subst hr
    subst hs
    obtain ⟨els⟩ := row
    simp only at he
    subst he
    rw [get_distance_and_duration]
    simp [hes]
  · intro hn
    cases resp with
    | transportError e => exact ⟨_, rfl⟩
    | parseError => exact ⟨_, rfl⟩
    | payload data =>
      obtain ⟨st, rows⟩ := data
      by_cases hst : st = "OK"
      · subst hst
        cases rows with
        | nil => exact ⟨_, rfl⟩
        | cons row rs =>
          obtain ⟨els⟩ := row
          cases els with
          | nil => exact ⟨_, rfl⟩
          | cons element es =>
            by_cases hes : element.status = "OK"
            · exact absurd ⟨_, _, _, _, _, rfl, rfl, rfl, rfl, hes⟩ hn
            · have hb : (element.status == "OK") = false := by
                simpa using hes
              refine ⟨"Distance Matrix API element status: "
                ++ element.status, ?_⟩
              simp [get_distance_and_duration, hb]
      · have hb : (st == "OK") = false := by simpa using hst
        refine ⟨"Distance Matrix API status: " ++ st, ?_⟩
        cases rows with
        | nil => simp [get_distance_and_duration, hb]
        | cons row rs => simp [get_distance_and_duration, hb]

theorem C8_witness :
    get_distance_and_duration (some "test-key") "A" "B"
        (okPayload 10000 900)
      = .ok (10000 / 1000) (900 / 60) ∧
    (∃ msg, get_distance_and_duration (some "test-key") "A" "B"
        notFoundPayload = .failure msg) := by
  constructor
  · exact (C8_resolver_contract "test-key" "A" "B" (okPayload 10000 900)).1
      ⟨"OK", [⟨[⟨"OK", 10000, 900⟩]⟩]⟩ ⟨[⟨"OK", 10000, 900⟩]⟩ []
      ⟨"OK", 10000, 900⟩ [] rfl rfl rfl rfl rfl
  · apply (C8_resolver_contract "test-key" "A" "B" notFoundPayload).2
    rintro ⟨data, row, rs, element, es, hresp, hr, he, hst, hes⟩
    rw [notFoundPayload] at hresp
    injection hresp with hdata
    subst hdata
    simp only at hr
    simp only [List.cons.injEq] at hr
    obtain ⟨hrow, -⟩ := hr
    subst hrow
    simp only [List.cons.injEq] at he
    obtain ⟨hel, -⟩ := he
    subst hel
    simp at hes

/-- C9: the configured fixed origin (defaulting to "Harare, Zimbabwe"
when the environment variable is unset) is unconditionally prepended:
for every environment, resolver and request, the stop sequence starts
with it, and every successful quote has at least 2 legs, the first of
which departs from the fixed origin — the itinerary never starts at the
pickup location. -/
theorem C9_fixed_origin_prepended (env : Env)
    (resolve : String → String → LegResult) (req : BookingRequest)
    (details : BookingDetails)
    (h : (book_ride env resolve (some req)).1 = .ok details) :
    (stops env req).head? = some (FIXED_ORIGIN env) ∧
    (env.fixedOriginEnv = none →
      FIXED_ORIGIN env = "Harare, Zimbabwe") ∧
    (∃ l rest, details.calculated_legs = l :: rest ∧
      l.from_ = FIXED_ORIGIN env) ∧
    2 ≤ details.calculated_legs.length := by
  obtain ⟨hreq, d1, t1, d2, t2, rl, h1, h2, h3⟩ :=
    book_ride_ok_inv env resolve req details h
  have hok := book_ride_ok env resolve req d1 t1 d2 t2 rl hreq h1 h2 h3
  rw [hok] at h
  injection h with hdet
  refine ⟨by simp [stops], ?_, ?_, ?_⟩
  · intro hnone
    rw [FIXED_ORIGIN, hnone]
    rfl
  · exact ⟨⟨FIXED_ORIGIN env, req.pickupLocation.getD "",
      round2 d1, round2 t1⟩, _, by rw [← hdet], rfl⟩
  · rw [← hdet]
    simp

theorem C9_witness :
    (stops envUnset reqABC).head? = some (FIXED_ORIGIN envUnset) ∧
    (envUnset.fixedOriginEnv = none →
      FIXED_ORIGIN envUnset = "Harare, Zimbabwe") ∧
    (∃ l rest, detailsABC.calculated_legs = l :: rest ∧
      l.from_ = FIXED_ORIGIN envUnset) ∧
    2 ≤ detailsABC.calculated_legs.length :=
  C9_fixed_origin_prepended envUnset resolveC1 reqABC detailsABC
    (by rw [bookride_ABC])

theorem additionalLoop_trace_mem (resolve : String → String → LegResult) :
    ∀ (dests : List String) (current : String) (td tt : ℚ) (legs : List Leg)
      (k : ℕ) (p : String × String),
      (consecutivePairs (current :: dests))[k]? = some p →
      (∀ i q, i < k → (consecutivePairs (current :: dests))[i]? = some q →
        (resolve q.1 q.2).isOk = true) →
      p ∈ (additionalLoop resolve current dests td tt legs).2
  | [], _, _, _, _, k, p, hp, _ => by
      simp [consecutivePairs] at hp
  | dest :: rest, current, td, tt, legs, 0, p, hp, _ => by
      rw [consecutivePairs] at hp
      simp only [List.getElem?_cons_zero, Option.some.injEq] at hp
      subst hp
      rw [additionalLoop]
      cases hres : resolve current dest with
      | failure err => simp
      | ok dist dur => simp
  | dest :: rest, current, td, tt, legs, k + 1, p, hp, hprev => by
      have h0 : (resolve current dest).isOk = true := by
        apply hprev 0 (current, dest) (Nat.succ_pos k)
        rw [consecutivePairs]
        simp
      obtain ⟨dist, dur, hres⟩ := (LegResult.isOk_iff _).1 h0
      rw [consecutivePairs] at hp
      simp only [List.getElem?_cons_succ] at hp
      have hprev' : ∀ i q, i < k →
          (consecutivePairs (dest :: rest))[i]? = some q →
          (resolve q.1 q.2).isOk = true := by
        intro i q hi hq
        apply hprev (i + 1) q (Nat.succ_lt_succ hi)
        rw [consecutivePairs]
        simpa using hq
      have ih := additionalLoop_trace_mem resolve rest dest (td + dist)
        (tt + dur) (legs ++ [⟨current, dest, round2 dist, round2 dur⟩]) k p
        hp hprev'
      rw [additionalLoop, hres]
      exact List.mem_cons_of_mem _ ih

theorem book_ride_trace_mem (env : Env)
    (resolve : String → String → LegResult) (req : BookingRequest)
    (k : ℕ) (p : String × String)
    (hreq : requiredFieldsPresent req = true)
    (hp : (consecutivePairs (stops env req))[k]? = some p)
    (hprev : ∀ i q, i < k → (consecutivePairs (stops env req))[i]? = some q →
      (resolve q.1 q.2).isOk = true) :
    p ∈ (book_ride env resolve (some req)).2 := by
  have hexp : consecutivePairs (stops env req)
      = (FIXED_ORIGIN env, req.pickupLocation.getD "")
        :: (req.pickupLocation.getD "", req.primaryDestination.getD "")
        :: consecutivePairs (req.primaryDestination.getD ""
            :: req.additionalDestinations) := by
    rw [stops, consecutivePairs, consecutivePairs]
  match k with
  | 0 =>
      rw [hexp] at hp
      simp only [List.getElem?_cons_zero, Option.some.injEq] at hp
      subst hp
      obtain ⟨rest, hrest⟩ := book_ride_trace_head env resolve req hreq
      rw [hrest]
      simp
  | 1 =>
      have h0 : (resolve (FIXED_ORIGIN env)
          (req.pickupLocation.getD "")).isOk = true := by
        apply hprev 0 (FIXED_ORIGIN env, req.pickupLocation.getD "") one_pos
        rw [hexp]; simp
      obtain ⟨d1, t1, h1⟩ := (LegResult.isOk_iff _).1 h0
      rw [hexp] at hp
      simp only [List.getElem?_cons_succ, List.getElem?_cons_zero,
        Option.some.injEq] at hp
      subst hp
      rw [book_ride]
      simp only [hreq, if_true, h1]
      split
      · simp
      · split <;> simp
  | k + 2 =>
      have h0 : (resolve (FIXED_ORIGIN env)
          (req.pickupLocation.getD "")).isOk = true := by
        apply hprev 0 (FIXED_ORIGIN env, req.pickupLocation.getD "")
          (by omega)
        rw [hexp]; simp
      obtain ⟨d1, t1, h1⟩ := (LegResult.isOk_iff _).1 h0
      have h0' : (resolve (req.pickupLocation.getD "")
          (req.primaryDestination.getD "")).isOk = true := by
        apply hprev 1
          (req.pickupLocation.getD "", req.primaryDestination.getD "")
          (by omega)
        rw [hexp]; simp
      obtain ⟨d2, t2, h2⟩ := (LegResult.isOk_iff _).1 h0'
      rw [hexp] at hp
      simp only [List.getElem?_cons_succ] at hp
      have hprev' : ∀ i q, i < k →
          (consecutivePairs (req.primaryDestination.getD ""
            :: req.additionalDestinations))[i]? = some q →
          (resolve q.1 q.2).isOk = true := by
        intro i q hi hq
        apply hprev (i + 2) q (by omega)
        rw [hexp]
        simpa using hq
      have hmem := additionalLoop_trace_mem resolve req.additionalDestinations
        (req.primaryDestination.getD "") (0 + d1 + d2) (0 + t1 + t2)
        [⟨FIXED_ORIGIN env, req.pickupLocation.getD "",
            round2 d1, round2 t1⟩,
         ⟨req.pickupLocation.getD "", req.primaryDestination.getD "",
            round2 d2, round2 t2⟩] k p hp hprev'
      rw [book_ride]
      simp only [hreq, if_true, h1, h2]
      split
      · exact List.mem_cons_of_mem _ (List.mem_cons_of_mem _ hmem)
      · exact List.mem_cons_of_mem _ (List.mem_cons_of_mem _ hmem)

theorem consecutivePairs_mem_of_mem :
    ∀ (l : List String) (a x : String), x ∈ l →
      ∃ (k : ℕ) (o : String),
        (consecutivePairs (a :: l))[k]? = some (o, x)
  | [], _, x, hx => absurd hx (List.not_mem_nil x)
  | b :: l, a, x, hx => by
      rw [consecutivePairs]
      rcases List.mem_cons.1 hx with hxb | hxl
      · subst hxb
        exact ⟨0, a, by simp⟩
      · obtain ⟨k, o, hk⟩ := consecutivePairs_mem_of_mem l b x hxl
        exact ⟨k + 1, o, by simpa using hk⟩

/-- C10: additionalDestinations entries are never validated — every valid
request whose additionalDestinations contains an empty string passes
validation (the status is never 400), the planned pair sequence contains a
leg whose destination is that empty string, and whenever the legs strictly
before it resolve, the resolver is actually invoked on it (the emptiness
of the string never prevents or alters the call; an earlier failing leg
aborts beforehand, per the abort property of C4). Moreover the resolver
itself ignores its origin and destination strings entirely — no non-empty
check exists. -/
theorem C10_empty_additional_destination (env : Env)
    (resolve : String → String → LegResult) (req : BookingRequest)
    (hreq : requiredFieldsPresent req = true)
    (hmem : "" ∈ req.additionalDestinations) :
    (book_ride env resolve (some req)).1.statusCode ≠ 400 ∧
    (∃ (k : ℕ) (o : String),
      (consecutivePairs (stops env req))[k]? = some (o, "") ∧
      ((∀ i q, i < k → (consecutivePairs (stops env req))[i]? = some q →
          (resolve q.1 q.2).isOk = true) →
        (o, "") ∈ (book_ride env resolve (some req)).2)) ∧
    (∀ key o o' dst dst' r,
      get_distance_and_duration (some key) o dst r
        = get_distance_and_duration (some key) o' dst' r) := by
  refine ⟨?_, ?_, fun key o o' dst dst' r => rfl⟩
  · rcases book_ride_cases env resolve req hreq with
      ⟨det, tr, heq⟩ | ⟨msg, tr, heq⟩ <;> rw [heq] <;>
      simp [HttpResponse.statusCode]
  · obtain ⟨k, o, hk⟩ := consecutivePairs_mem_of_mem
      (req.pickupLocation.getD "" :: req.primaryDestination.getD ""
        :: req.additionalDestinations) (FIXED_ORIGIN env) ""
      (List.mem_cons_of_mem _ (List.mem_cons_of_mem _ hmem))
    exact ⟨k, o, hk, fun hprev =>
      book_ride_trace_mem env resolve req k (o, "") hreq hk hprev⟩

theorem C10_witness :
    "" ∈ reqEmptyDest.additionalDestinations ∧
    (book_ride envUnset resolveC1 (some reqEmptyDest)).1.statusCode ≠ 400 ∧
    ("B", "") ∈ (book_ride envUnset resolveC1 (some reqEmptyDest)).2 := by
  have h := C10_empty_additional_destination envUnset resolveC1 reqEmptyDest
    rfl (by decide)
  refine ⟨by decide, h.1, ?_⟩
  obtain ⟨k, o, hk, himp⟩ := h.2.1
  have hall : ∀ i q, i < k →
      (consecutivePairs (stops envUnset reqEmptyDest))[i]? = some q →
      (resolveC1 q.1 q.2).isOk = true := by
    intro i q _ _
    simp only [resolveC1]
    split
    · rfl
    · split <;> rfl
  have htr := himp hall
  have hpairs : consecutivePairs (stops envUnset reqEmptyDest)
      = [("Harare, Zimbabwe", "A"), ("A", "B"), ("B", "")] := by
    rw [stops]
    simp [consecutivePairs, envUnset, FIXED_ORIGIN, reqEmptyDest, reqABC]
  rw [hpairs] at hk
  have hmemk : (o, "")
      ∈ [("Harare, Zimbabwe", "A"), ("A", "B"), ("B", "")] :=
    List.getElem?_mem hk
  simp only [List.mem_cons, List.not_mem_nil, or_false,
    Prod.mk.injEq] at hmemk
  rcases hmemk with ⟨-, hbad⟩ | ⟨-, hbad⟩ | ⟨ho, -⟩
  · exact absurd hbad (by decide)
  · exact absurd hbad (by decide)
  · subst ho
    exact htr

end RideApp
